import Mathlib

/-!
Shallow embedding of `perseus-tailwind` (src/src/lib.rs), a Perseus build
plugin that runs the Tailwind CLI at build time. The embedding models:

* `TailwindOptions` (lib.rs lines 46-54): the caller-supplied input/output
  CSS paths.
* the argument vector construction (lib.rs lines 100-104),
* the configuration bootstrap (lib.rs lines 96-98 and `init_tailwind`,
  lines 120-129),
* the spawn of the external `tailwindcli` process and capture of its
  standard-error stream (lib.rs lines 106-110), including Rust's
  `String::from_utf8_lossy` decoding of the captured bytes,
* the failure heuristic (lib.rs lines 115-117): panic with the decoded
  stderr text exactly when it contains the character `\x7d`.

Ambient build inputs (the `cfg!(debug_assertions)` flag, the bytes of the
embedded default template, and the behaviour of the external process) are
packaged in an `Ambient` record; the filesystem state observed by the code
is only the presence/content of `tailwind.config.js`, packaged in `FS`.
Text is modelled as a list of Unicode scalar values; byte streams as lists
of naturals below 256.
-/

namespace PerseusTailwind

/-- Options for the Tailwind CLI (lib.rs lines 46-54): the input CSS path
and the output CSS path, both plain strings. -/
structure TailwindOptions where
  in_file : String
  out_file : String
deriving DecidableEq, Repr

/-- Unicode scalar values of a Lean string; used to model Rust strings as
lists of scalar values. -/
def scalars (s : String) : List Nat :=
  s.toList.map Char.toNat

/-- Result of running the external process to completion
(`std::process::Output`): captured stdout bytes, captured stderr bytes and
the exit status. Only `stderr` is ever inspected by the plugin. -/
structure ProcessOutput where
  stdout : List Nat
  stderr : List Nat
  status : Int
deriving DecidableEq, Repr

/-- Ambient build inputs of `try_run_tailwind`:
`defaultConfig` is the byte blob of the embedded default template
(`default-config.js`; the file itself is not part of the sources, the spec
treats its content as an opaque byte blob, so it is a parameter here);
`debugAssertions` is the value of `cfg!(debug_assertions)`;
`cli` is the external `tailwindcli` process: given the argument vector it
either completes with a `ProcessOutput` or fails to spawn with an error
description (the `Err` case of `Command::output`). -/
structure Ambient where
  defaultConfig : List Nat
  debugAssertions : Bool
  cli : List String → Except String ProcessOutput

/-- The filesystem state observed by the plugin: presence and content of
the single fixed-path file `tailwind.config.js` in the project root
(`none` when the file is absent). -/
structure FS where
  tailwindConfig : Option (List Nat)
deriving DecidableEq, Repr

/-- Events emitted by one invocation of the build step, in order:
a write of `tailwind.config.js`, the spawn of the external process with
its argument vector, and the capture of that process's stderr bytes. -/
inductive StepEvent where
  | configWritten (content : List Nat)
  | processSpawned (args : List String)
  | outputCaptured (stderrBytes : List Nat)
deriving DecidableEq, Repr

/-- Terminal outcome of one invocation of the build step: normal return,
panic on spawn failure (lib.rs line 109), or panic with the decoded stderr
text (lib.rs line 116). -/
inductive Outcome where
  | succeeded
  | abortedSpawn (message : List Nat)
  | abortedCli (message : List Nat)
deriving DecidableEq, Repr

/-- Classification produced by the failure detector. -/
inductive Classification where
  | success
  | failure (message : List Nat)
deriving DecidableEq, Repr

/-- Argument vector construction (lib.rs lines 100-104):
`["build", in_file, "-o", out_file]`, with `"-m"` and `"-p"` pushed when
`cfg!(not(debug_assertions))` holds. -/
def tailwindArgs (options : TailwindOptions) (debugAssertions : Bool) : List String :=
  let args := ["build", options.in_file, "-o", options.out_file]
  if !debugAssertions then args ++ ["-m", "-p"] else args

/-- Whether a byte is a UTF-8 continuation byte (high bits `10`). -/
def contByte (b : Nat) : Bool :=
  0x80 ≤ b && b ≤ 0xBF

/-- Valid range of the first continuation byte given the lead byte, per
the UTF-8 validation used by Rust's `String::from_utf8_lossy`
(overlong/surrogate/out-of-range exclusions). -/
def cont1Ok (lead b1 : Nat) : Bool :=
  if lead = 0xE0 then 0xA0 ≤ b1 && b1 ≤ 0xBF
  else if lead = 0xED then 0x80 ≤ b1 && b1 ≤ 0x9F
  else if lead = 0xF0 then 0x90 ≤ b1 && b1 ≤ 0xBF
  else if lead = 0xF4 then 0x80 ≤ b1 && b1 ≤ 0x8F
  else contByte b1

/-- Rust's `String::from_utf8_lossy` (lib.rs line 110) on a byte list,
producing the list of decoded Unicode scalar values: well-formed sequences
decode to their scalar value, and each maximal invalid subpart is replaced
by one U+FFFD replacement character. -/
def utf8Lossy : List Nat → List Nat
  | [] => []
  | b :: rest =>
    if b < 0x80 then b :: utf8Lossy rest
    else if b < 0xC2 then 0xFFFD :: utf8Lossy rest
    else if b ≤ 0xDF then
      match rest with
      | [] => [0xFFFD]
      | b1 :: rest1 =>
        if contByte b1 then
          ((b - 0xC0) * 0x40 + (b1 - 0x80)) :: utf8Lossy rest1
        else 0xFFFD :: utf8Lossy (b1 :: rest1)
    else if b ≤ 0xEF then
      match rest with
      | [] => [0xFFFD]
      | b1 :: rest1 =>
        if cont1Ok b b1 then
          match rest1 with
          | [] => [0xFFFD]
          | b2 :: rest2 =>
            if contByte b2 then
              ((b - 0xE0) * 0x1000 + (b1 - 0x80) * 0x40 + (b2 - 0x80)) :: utf8Lossy rest2
            else 0xFFFD :: utf8Lossy (b2 :: rest2)
        else 0xFFFD :: utf8Lossy (b1 :: rest1)
    else if b ≤ 0xF4 then
      match rest with
      | [] => [0xFFFD]
      | b1 :: rest1 =>
        if cont1Ok b b1 then
          match rest1 with
          | [] => [0xFFFD]
          | b2 :: rest2 =>
            if contByte b2 then
              match rest2 with
              | [] => [0xFFFD]
              | b3 :: rest3 =>
                if contByte b3 then
                  ((b - 0xF0) * 0x40000 + (b1 - 0x80) * 0x1000
                      + (b2 - 0x80) * 0x40 + (b3 - 0x80)) :: utf8Lossy rest3
                else 0xFFFD :: utf8Lossy (b3 :: rest3)
            else 0xFFFD :: utf8Lossy (b2 :: rest2)
        else 0xFFFD :: utf8Lossy (b1 :: rest1)
    else 0xFFFD :: utf8Lossy rest

/-- The failure detector (lib.rs lines 115-117): Failure with the stderr
text as message exactly when the text contains the character `\x7d`
(scalar 0x7D), Success otherwise. -/
def classify (stderrText : List Nat) : Classification :=
  if 0x7D ∈ stderrText then .failure stderrText else .success

/-- Panic message of the `expect` on spawn failure (lib.rs line 109):
the fixed text followed by the error description. -/
def spawnFailureMessage (e : String) : List Nat :=
  scalars ("Failed to run Tailwind CLI: " ++ e)

/-- Writes the embedded default template verbatim to
`tailwind.config.js`, creating the file (`init_tailwind`, lib.rs lines
120-129). -/
def init_tailwind (a : Ambient) (_fs : FS) : FS :=
  { tailwindConfig := some a.defaultConfig }

/-- Configuration bootstrap (lib.rs lines 96-98): when
`tailwind.config.js` does not exist, call `init_tailwind`; otherwise do
nothing. Returns the resulting filesystem and the write events performed. -/
def ensureConfig (a : Ambient) (fs : FS) : FS × List StepEvent :=
  match fs.tailwindConfig with
  | some _ => (fs, [])
  | none => (init_tailwind a fs, [StepEvent.configWritten a.defaultConfig])

/-- One invocation of the build step (`try_run_tailwind`, lib.rs lines
94-118): ensure the configuration file, build the argument vector, run the
external process, lossy-decode the captured stderr bytes and apply the
failure detector. Returns the resulting filesystem, the ordered event
trace and the terminal outcome. -/
def try_run_tailwind (a : Ambient) (options : TailwindOptions) (fs : FS) :
    FS × List StepEvent × Outcome :=
  let ec := ensureConfig a fs
  let args := tailwindArgs options a.debugAssertions
  match a.cli args with
  | .error e => (ec.1, ec.2, Outcome.abortedSpawn (spawnFailureMessage e))
  | .ok out =>
    let text := utf8Lossy out.stderr
    let trace := ec.2 ++ [StepEvent.processSpawned args, StepEvent.outputCaptured out.stderr]
    match classify text with
    | .failure m => (ec.1, trace, Outcome.abortedCli m)
    | .success => (ec.1, trace, Outcome.succeeded)

/-- A world: the ambient build inputs, the caller-owned options value and
the filesystem. The two plugin actions below share it. -/
structure World where
  ambient : Ambient
  options : TailwindOptions
  fs : FS

/-- The `before_build` plugin action (lib.rs lines 64-74): it calls
`try_run_tailwind` on the caller's options; the options value itself is
only read. -/
def before_build_action (w : World) : World × List StepEvent × Outcome :=
  let r := try_run_tailwind w.ambient w.options w.fs
  ({ w with fs := r.1 }, r.2.1, r.2.2)

/-- The `before_export` plugin action (lib.rs lines 75-85): identical body
to the build action. -/
def before_export_action (w : World) : World × List StepEvent × Outcome :=
  let r := try_run_tailwind w.ambient w.options w.fs
  ({ w with fs := r.1 }, r.2.1, r.2.2)

/-- Substring test on scalar lists: `textMentions pat m` holds when `pat`
occurs contiguously inside `m`. Used to formalise what a message "states". -/
def textMentions (pat m : List Nat) : Bool :=
  (List.range (m.length + 1)).any (fun i => ((m.drop i).take pat.length) == pat)

/-! ### Helper lemmas -/

/-- When the configuration file already exists, `ensureConfig` changes
nothing and performs no write. -/
theorem ensureConfig_some (a : Ambient) (fs : FS) (c : List Nat)
    (h : fs.tailwindConfig = some c) : ensureConfig a fs = (fs, []) := by
  simp [ensureConfig, h]

/-- The filesystem returned by the build step is the one produced by the
configuration bootstrap: nothing after the bootstrap writes to it. -/
theorem try_run_tailwind_fs (a : Ambient) (options : TailwindOptions) (fs : FS) :
    (try_run_tailwind a options fs).1 = (ensureConfig a fs).1 := by
  cases hc : a.cli (tailwindArgs options a.debugAssertions) with
  | error e => simp [try_run_tailwind, hc]
  | ok o =>
    cases hcl : classify (utf8Lossy o.stderr) <;> simp [try_run_tailwind, hc, hcl]

/-- Configuration-write events of the build step are exactly those of the
configuration bootstrap. -/
theorem try_run_tailwind_configWritten (a : Ambient) (options : TailwindOptions)
    (fs : FS) (b : List Nat) :
    StepEvent.configWritten b ∈ (try_run_tailwind a options fs).2.1 ↔
      StepEvent.configWritten b ∈ (ensureConfig a fs).2 := by
  cases hc : a.cli (tailwindArgs options a.debugAssertions) with
  | error e => simp [try_run_tailwind, hc]
  | ok o =>
    cases hcl : classify (utf8Lossy o.stderr) <;> simp [try_run_tailwind, hc, hcl]

/-! ### Shared concrete fixtures for witnesses and counterexamples -/

/-- Options from the crate documentation example (lib.rs lines 20-25). -/
def docOptions : TailwindOptions :=
  ⟨"src/tailwind.css", "dist/static/tailwind.css"⟩

/-- A filesystem on which `tailwind.config.js` already exists. -/
def someConfigFS : FS := ⟨some [0]⟩

/-- Ambient inputs whose external process completes with empty stderr. -/
def quietCliAmbient : Ambient := ⟨[], true, fun _ => .ok ⟨[], [], 0⟩⟩

/-! ### Claim theorems -/

/-- C1: for every stderr text captured from a completed CLI invocation,
the failure detector classifies the invocation as Failure — aborting the
build with that text — iff the text contains the character `\x7d`
(scalar 0x7D), and as Success otherwise, including when the text is empty
or non-empty informational output. -/
theorem classify_failure_iff_contains_brace
    (a : Ambient) (options : TailwindOptions) (fs : FS) (o : ProcessOutput)
    (h : a.cli (tailwindArgs options a.debugAssertions) = .ok o) :
    (classify (utf8Lossy o.stderr) = Classification.failure (utf8Lossy o.stderr) ↔
      0x7D ∈ utf8Lossy o.stderr) ∧
    (classify (utf8Lossy o.stderr) = Classification.success ↔
      0x7D ∉ utf8Lossy o.stderr) ∧
    ((try_run_tailwind a options fs).2.2 = Outcome.abortedCli (utf8Lossy o.stderr) ↔
      0x7D ∈ utf8Lossy o.stderr) ∧
    ((try_run_tailwind a options fs).2.2 = Outcome.succeeded ↔
      0x7D ∉ utf8Lossy o.stderr) := by
  by_cases hmem : (0x7D : Nat) ∈ utf8Lossy o.stderr <;>
    simp [try_run_tailwind, classify, h, hmem]

/-- Witness for C1 at a concrete input: a CLI run with empty stderr is
classified Success. -/
theorem classify_failure_iff_contains_brace_witness :
    (try_run_tailwind quietCliAmbient docOptions someConfigFS).2.2 = Outcome.succeeded :=
  (classify_failure_iff_contains_brace quietCliAmbient docOptions someConfigFS
      ⟨[], [], 0⟩ rfl).2.2.2.mpr (by decide)

/-- C2: for every options value (any strings, including empty or
space-containing ones) and every build mode, the argument vector equals
`["build", in_file, "-o", out_file]`, with `["-m", "-p"]` appended iff the
build is a release (non-debug) build. -/
theorem tailwind_args_release_flags (options : TailwindOptions) (dbg : Bool) :
    tailwindArgs options dbg =
      ["build", options.in_file, "-o", options.out_file] ++
        (if dbg then [] else ["-m", "-p"]) ∧
    (tailwindArgs options dbg =
        ["build", options.in_file, "-o", options.out_file] ++ ["-m", "-p"] ↔
      dbg = false) ∧
    (tailwindArgs options dbg =
        ["build", options.in_file, "-o", options.out_file] ↔ dbg = true) := by
  cases dbg <;> simp [tailwindArgs]

/-- C3: when `tailwind.config.js` already exists, the build step performs
no write to it — its content is unchanged — and a second invocation on the
resulting state also performs no write. -/
theorem ensure_config_idempotent_no_write
    (a : Ambient) (options : TailwindOptions) (fs : FS) (c : List Nat)
    (h : fs.tailwindConfig = some c) :
    (try_run_tailwind a options fs).1 = fs ∧
    (∀ b, StepEvent.configWritten b ∉ (try_run_tailwind a options fs).2.1) ∧
    (try_run_tailwind a options (try_run_tailwind a options fs).1).1 = fs ∧
    (∀ b, StepEvent.configWritten b ∉
      (try_run_tailwind a options (try_run_tailwind a options fs).1).2.1) := by
  have h1 : (try_run_tailwind a options fs).1 = fs := by
    rw [try_run_tailwind_fs, ensureConfig_some a fs c h]
  refine ⟨h1, ?_, ?_, ?_⟩
  · intro b hb
    rw [try_run_tailwind_configWritten, ensureConfig_some a fs c h] at hb
    simp at hb
  · rw [h1, h1]
  · intro b hb
    rw [h1, try_run_tailwind_configWritten, ensureConfig_some a fs c h] at hb
    simp at hb

/-- Witness for C3 at a concrete input. -/
theorem ensure_config_idempotent_no_write_witness :
    (try_run_tailwind quietCliAmbient docOptions someConfigFS).1 = someConfigFS :=
  (ensure_config_idempotent_no_write quietCliAmbient docOptions someConfigFS [0] rfl).1

/-- C4: when no configuration file exists, the build step creates
`tailwind.config.js` with exactly the bytes of the embedded default
template, written verbatim (the template bytes are the opaque
`defaultConfig` parameter, since `default-config.js` is an opaque blob). -/
theorem ensure_config_creates_default
    (a : Ambient) (options : TailwindOptions) (fs : FS)
    (h : fs.tailwindConfig = none) :
    (try_run_tailwind a options fs).1.tailwindConfig = some a.defaultConfig ∧
    StepEvent.configWritten a.defaultConfig ∈ (try_run_tailwind a options fs).2.1 := by
  constructor
  · rw [try_run_tailwind_fs]
    simp [ensureConfig, h, init_tailwind]
  · rw [try_run_tailwind_configWritten]
    simp [ensureConfig, h]

/-- Witness for C4 at a concrete input. -/
theorem ensure_config_creates_default_witness :
    (try_run_tailwind quietCliAmbient docOptions ⟨none⟩).1.tailwindConfig = some [] :=
  (ensure_config_creates_default quietCliAmbient docOptions ⟨none⟩ rfl).1

/-- Ambient inputs whose external process fails to spawn with the usual
missing-binary error description. -/
def missingCliAmbient : Ambient :=
  ⟨[], true, fun _ => .error "No such file or directory (os error 2)"⟩

/-- Counterexample for C5: when spawning fails because the binary is
missing, the diagnostic raised is
"Failed to run Tailwind CLI: No such file or directory (os error 2)"; the
message mentions neither "present" nor "must" nor "environment" nor
"binary", so it does not state that the binary must be present on the
build environment. -/
theorem spawn_failure_message_counterexample :
    (try_run_tailwind missingCliAmbient docOptions someConfigFS).2.2 =
      Outcome.abortedSpawn (spawnFailureMessage "No such file or directory (os error 2)") ∧
    textMentions (scalars "present")
      (spawnFailureMessage "No such file or directory (os error 2)") = false ∧
    textMentions (scalars "must")
      (spawnFailureMessage "No such file or directory (os error 2)") = false ∧
    textMentions (scalars "environment")
      (spawnFailureMessage "No such file or directory (os error 2)") = false ∧
    textMentions (scalars "binary")
      (spawnFailureMessage "No such file or directory (os error 2)") = false := by
  refine ⟨by decide, by decide, by decide, by decide, by decide⟩

/-- C5 as amended: whenever the external binary cannot be located or
spawned, the build step aborts immediately — fatally and with no retry
(no process-spawn or output-capture event occurs) — with the fixed
diagnostic "Failed to run Tailwind CLI" followed by the spawn error; the
requirement that the binary be present on the build environment appears
only in the crate documentation, not in the message. -/
theorem spawn_failure_aborts_fixed_message
    (a : Ambient) (options : TailwindOptions) (fs : FS) (e : String)
    (h : a.cli (tailwindArgs options a.debugAssertions) = .error e) :
    (try_run_tailwind a options fs).2.2 = Outcome.abortedSpawn (spawnFailureMessage e) ∧
    (∀ args, StepEvent.processSpawned args ∉ (try_run_tailwind a options fs).2.1) ∧
    (∀ bytes, StepEvent.outputCaptured bytes ∉ (try_run_tailwind a options fs).2.1) := by
  obtain ⟨cfg⟩ := fs
  cases cfg <;> simp [try_run_tailwind, ensureConfig, init_tailwind, h]

/-- Witness for the amended C5 at a concrete input. -/
theorem spawn_failure_aborts_fixed_message_witness :
    (try_run_tailwind missingCliAmbient docOptions someConfigFS).2.2 =
      Outcome.abortedSpawn (spawnFailureMessage "No such file or directory (os error 2)") :=
  (spawn_failure_aborts_fixed_message missingCliAmbient docOptions someConfigFS
      "No such file or directory (os error 2)" rfl).1

/-- A completed process result with some stdout and exit code 0. -/
def resultA : ProcessOutput := ⟨scalars "alpha output", scalars "Done in 120ms", 0⟩

/-- A completed process result with the same stderr as `resultA` but
different stdout and a different exit code. -/
def resultB : ProcessOutput := ⟨scalars "beta output", scalars "Done in 120ms", 1⟩

/-- Ambient inputs delivering `resultA`. -/
def ambientA : Ambient := ⟨[], true, fun _ => .ok resultA⟩

/-- Ambient inputs delivering `resultB`. -/
def ambientB : Ambient := ⟨[], false, fun _ => .ok resultB⟩

/-- C6: the success/failure classification is a function of the captured
stderr only: two completed invocations whose process results have
identical stderr bytes — whatever their stdout, their exit codes, the
options, the build mode or the filesystem — produce the same outcome. -/
theorem classification_depends_only_on_stderr
    (a a' : Ambient) (opt opt' : TailwindOptions) (fs fs' : FS) (o o' : ProcessOutput)
    (h : a.cli (tailwindArgs opt a.debugAssertions) = .ok o)
    (h' : a'.cli (tailwindArgs opt' a'.debugAssertions) = .ok o')
    (hs : o.stderr = o'.stderr) :
    (try_run_tailwind a opt fs).2.2 = (try_run_tailwind a' opt' fs').2.2 := by
  have hs' : utf8Lossy o.stderr = utf8Lossy o'.stderr := by rw [hs]
  by_cases hmem : (0x7D : Nat) ∈ utf8Lossy o'.stderr <;>
    simp [try_run_tailwind, classify, h, h', hs', hmem]

/-- Witness for C6 at concrete inputs differing in stdout, exit code and
build mode but sharing stderr. -/
theorem classification_depends_only_on_stderr_witness :
    (try_run_tailwind ambientA docOptions someConfigFS).2.2 =
      (try_run_tailwind ambientB docOptions someConfigFS).2.2 :=
  classification_depends_only_on_stderr ambientA ambientB docOptions docOptions
    someConfigFS someConfigFS resultA resultB rfl rfl rfl

/-- C7: whenever the failure detector classifies a completed invocation as
Failure, the diagnostic raised is the captured (decoded) stderr text
verbatim. -/
theorem failure_message_verbatim
    (a : Ambient) (options : TailwindOptions) (fs : FS) (o : ProcessOutput)
    (h : a.cli (tailwindArgs options a.debugAssertions) = .ok o)
    (hf : (0x7D : Nat) ∈ utf8Lossy o.stderr) :
    (try_run_tailwind a options fs).2.2 = Outcome.abortedCli (utf8Lossy o.stderr) := by
  simp [try_run_tailwind, classify, h, hf]

/-- Ambient inputs whose external process writes the JSON error object of
the spec scenario to stderr (ASCII bytes). -/
def jsonErrAmbient : Ambient :=
  ⟨[], true, fun _ => .ok ⟨[], scalars "\x7b\"error\":\"bad syntax\"\x7d", 0⟩⟩

/-- Witness for C7 at the spec scenario: stderr
`\x7b"error":"bad syntax"\x7d` yields Failure with exactly that text as
the message. -/
theorem failure_message_verbatim_witness :
    (try_run_tailwind jsonErrAmbient docOptions someConfigFS).2.2 =
      Outcome.abortedCli (scalars "\x7b\"error\":\"bad syntax\"\x7d") := by
  have h1 := failure_message_verbatim jsonErrAmbient docOptions someConfigFS
      ⟨[], scalars "\x7b\"error\":\"bad syntax\"\x7d", 0⟩ rfl (by decide)
  have h2 : utf8Lossy (scalars "\x7b\"error\":\"bad syntax\"\x7d") =
      scalars "\x7b\"error\":\"bad syntax\"\x7d" := by decide
  rw [h1]
  exact congrArg Outcome.abortedCli h2

/-- C8: every invocation of the build step follows the step order. The
trace starts with the configuration bootstrap (an optional write of the
default template), so the configuration file is ensured before any spawn;
then either the spawn fails and the invocation ends in a terminal spawn
abort with no spawn/capture event, or the process runs to completion, its
stderr is captured after the spawn, and only then is the outcome decided:
Succeeded when the decoded stderr has no `\x7d`, a terminal CLI abort
otherwise. The trace contains at most one spawn event, so there is no
retry. -/
theorem build_step_event_order (a : Ambient) (opt : TailwindOptions) (fs : FS) :
    ∃ cfg, (cfg = [] ∨ cfg = [StepEvent.configWritten a.defaultConfig]) ∧
      (((try_run_tailwind a opt fs).2.1 = cfg ∧
          ∃ e, a.cli (tailwindArgs opt a.debugAssertions) = Except.error e ∧
            (try_run_tailwind a opt fs).2.2 = Outcome.abortedSpawn (spawnFailureMessage e)) ∨
        (∃ o, a.cli (tailwindArgs opt a.debugAssertions) = Except.ok o ∧
          (try_run_tailwind a opt fs).2.1 =
            cfg ++ [StepEvent.processSpawned (tailwindArgs opt a.debugAssertions),
                    StepEvent.outputCaptured o.stderr] ∧
          ((0x7D ∉ utf8Lossy o.stderr ∧
              (try_run_tailwind a opt fs).2.2 = Outcome.succeeded) ∨
            (0x7D ∈ utf8Lossy o.stderr ∧
              (try_run_tailwind a opt fs).2.2 =
                Outcome.abortedCli (utf8Lossy o.stderr))))) := by
  refine ⟨(ensureConfig a fs).2, ?_, ?_⟩
  · obtain ⟨cfg⟩ := fs
    cases cfg <;> simp [ensureConfig, init_tailwind]
  · cases hc : a.cli (tailwindArgs opt a.debugAssertions) with
    | error e =>
      exact Or.inl ⟨by simp [try_run_tailwind, hc], e, rfl, by simp [try_run_tailwind, hc]⟩
    | ok o =>
      refine Or.inr ⟨o, rfl, ?_, ?_⟩
      · by_cases hm : (0x7D : Nat) ∈ utf8Lossy o.stderr <;>
          simp [try_run_tailwind, classify, hc, hm]
      · by_cases hm : (0x7D : Nat) ∈ utf8Lossy o.stderr
        · exact Or.inr ⟨hm, by simp [try_run_tailwind, classify, hc, hm]⟩
        · exact Or.inl ⟨hm, by simp [try_run_tailwind, classify, hc, hm]⟩

/-- C9: the options value is only read, never written: both registered
plugin actions (pre-build and pre-export) return a world whose options —
and both of its fields — equal the caller's. -/
theorem options_read_only (w : World) :
    (before_build_action w).1.options = w.options ∧
    (before_export_action w).1.options = w.options ∧
    (before_build_action w).1.options.in_file = w.options.in_file ∧
    (before_build_action w).1.options.out_file = w.options.out_file ∧
    (before_export_action w).1.options.in_file = w.options.in_file ∧
    (before_export_action w).1.options.out_file = w.options.out_file := by
  simp [before_build_action, before_export_action]

/-- Bytes that can never begin a well-formed UTF-8 sequence: bare
continuation bytes 0x80-0xBF, the overlong leads 0xC0-0xC1, and
0xF5-0xFF; a byte stream made only of these is entirely invalid UTF-8. -/
def invalidLeadByte (b : Nat) : Bool :=
  (0x80 ≤ b && b < 0xC2) || (0xF5 ≤ b && b ≤ 0xFF)

/-- Lossy decoding replaces a stream made only of invalid lead bytes by
one replacement character per byte. -/
theorem utf8Lossy_all_invalid (s : List Nat)
    (h : ∀ b ∈ s, invalidLeadByte b = true) :
    utf8Lossy s = List.replicate s.length 0xFFFD := by
  induction s with
  | nil => rfl
  | cons b rest ih =>
    have hb := h b (List.mem_cons_self b rest)
    have hr := ih fun x hx => h x (List.mem_cons_of_mem b hx)
    simp only [invalidLeadByte, Bool.or_eq_true, Bool.and_eq_true,
      decide_eq_true_eq] at hb
    rcases hb with ⟨h1, h2⟩ | ⟨h1, h2⟩
    · have e1 : ¬ b < 0x80 := by omega
      have e2 : b < 0xC2 := by omega
      rw [utf8Lossy.eq_def]
      simp [e1, e2, hr, List.replicate_succ]
    · have e1 : ¬ b < 0x80 := by omega
      have e2 : ¬ b < 0xC2 := by omega
      have e3 : ¬ b ≤ 0xDF := by omega
      have e4 : ¬ b ≤ 0xEF := by omega
      have e5 : ¬ b ≤ 0xF4 := by omega
      rw [utf8Lossy.eq_def]
      simp [e1, e2, e3, e4, e5, hr, List.replicate_succ]

/-- C10: the failure detector is total over arbitrary stderr byte
sequences — the captured bytes are lossy-decoded before classification —
and a stderr made only of invalid UTF-8 bytes decodes to replacement
characters only, so it is classified Success: the replacement character is
never `\x7d`. -/
theorem invalid_utf8_stderr_classified_success
    (a : Ambient) (options : TailwindOptions) (fs : FS) (o : ProcessOutput)
    (h : a.cli (tailwindArgs options a.debugAssertions) = .ok o)
    (hinv : ∀ b ∈ o.stderr, invalidLeadByte b = true) :
    utf8Lossy o.stderr = List.replicate o.stderr.length 0xFFFD ∧
    classify (utf8Lossy o.stderr) = Classification.success ∧
    (try_run_tailwind a options fs).2.2 = Outcome.succeeded := by
  have hdec := utf8Lossy_all_invalid o.stderr hinv
  have hmem : (0x7D : Nat) ∉ utf8Lossy o.stderr := by
    rw [hdec]
    intro hx
    have := List.eq_of_mem_replicate hx
    omega
  exact ⟨hdec, by simp [classify, hmem],
    by simp [try_run_tailwind, classify, h, hmem]⟩

/-- Ambient inputs whose external process writes only invalid UTF-8 bytes
to stderr. -/
def invalidStderrAmbient : Ambient :=
  ⟨[], true, fun _ => .ok ⟨[], [0xFF, 0x80, 0xC1], 0⟩⟩

/-- Witness for C10 at a concrete input: stderr `FF 80 C1` decodes to
three replacement characters and the invocation succeeds. -/
theorem invalid_utf8_stderr_classified_success_witness :
    utf8Lossy [0xFF, 0x80, 0xC1] = [0xFFFD, 0xFFFD, 0xFFFD] ∧
    (try_run_tailwind invalidStderrAmbient docOptions someConfigFS).2.2 =
      Outcome.succeeded := by
  have h := invalid_utf8_stderr_classified_success invalidStderrAmbient docOptions
      someConfigFS ⟨[], [0xFF, 0x80, 0xC1], 0⟩ rfl (by decide)
  exact ⟨by decide, h.2.2⟩

end PerseusTailwind
